import Mathlib

/-!
Verification of the trading-agents orchestrator (fastapi-agents repository).

This file gives a shallow embedding of the orchestration engine
(`src/trading-agents/orchestrator/main.py`), the session store
(`src/trading-agents/orchestrator/sessionmanager.py`) and the trade-execution
capability (`src/trading-agents/stock-trader/main.py`), and proves or refutes
the specified properties about them.

Modelling conventions:
- machine floats become `ℚ` (all numeric literals involved are exact decimals);
- `datetime.now()` becomes an explicit natural-number clock threaded through
  the operations; each persistence call site uses a strictly later tick;
- Firestore documents become association lists keyed by document id; `.set`
  replaces-or-inserts, `.update` merges and fails on a missing document;
- calls to external capabilities (market analyst, stock trader, Vertex AI)
  become explicit outcome parameters in an environment record: every claim
  quantifies over what the capability returned or whether it failed;
- a Firestore write that may raise is modelled by a fault flag per call site;
  methods that catch the exception internally take the flag as a parameter,
  methods without a try/except are guarded by the flag at the call site, where
  the exception would propagate in the source;
- Python `str.strip` / `str.upper` / `str.startswith` are modelled by
  structurally recursive functions on the character list of the string.
-/

namespace Trading

/-- Python string helper: `s.strip()` (drop leading and trailing whitespace). -/
def pyStrip (s : List Char) : List Char :=
  ((s.dropWhile Char.isWhitespace).reverse.dropWhile Char.isWhitespace).reverse

/-- Python string helper: `s.upper()` (ASCII uppercase, per character). -/
def pyUpper (s : List Char) : List Char := s.map Char.toUpper

/-- Python string helper: `s.startswith(pre)`. -/
def pyStartsWith (s pre : List Char) : Bool := pre.isPrefixOf s

/-- Python rendering of an optional string in an f-string: `None` when absent. -/
def pyShowOpt : Option String → String
  | some s => s
  | none => "None"

/-- Outcome of one call to the Vertex AI `GenerativeModel.generate_content`
reasoning capability: the returned `response.text`, or any raised exception. -/
inductive LLMResult where
  | ok (text : String)
  | failure
  deriving Repr, DecidableEq

/-- Request body of `POST /trading-workflow` (`TradingRequest` in
`orchestrator/main.py`, lines 38-44), defaults as in the source. -/
structure TradingRequest where
  symbol : String
  analysis_type : String := "technical"
  quantity : ℤ := 100
  user_id : String
  session_id : Option String := none
  auto_execute : Bool := true
  deriving Repr, DecidableEq

/-- Analysis payload returned by the market analyst and consumed by the
orchestrator.  The orchestrator accesses `recommendation` and `confidence`
both with `[...]` (raising `KeyError` when absent) and with `.get` (defaulting),
so both fields are optional here; `llm_reasoning` is only read with `.get`. -/
structure AnalysisData where
  recommendation : Option String
  confidence : Option ℚ
  llm_reasoning : Option String
  deriving Repr, DecidableEq

/-- The `initial_data` snapshot stored by `create_session`
(`orchestrator/main.py` lines 95-99; the `quantiry` typo is the source's). -/
structure InitialData where
  symbol : String
  quantiry : ℤ
  auto_execute : Bool
  deriving Repr, DecidableEq

/-- Payload fields of one workflow step, one constructor per `add_workflow_step`
call site in `orchestrator/main.py` (the `step` tag itself is kept separately). -/
inductive StepPayload where
  | ofRequest (data : TradingRequest)
  | ofSymbol (symbol : String)
  | ofAnalysis (analysis_id : String) (recommendation : Option String)
  | ofAction (action : Option String)
  | ofTrade (trade_id : String) (status : Option String)
  deriving Repr, DecidableEq

/-- One recorded workflow transition (`step_with_timestamp` in
`sessionmanager.py`, lines 69-72). -/
structure WorkflowStep where
  step : String
  payload : StepPayload
  timestamp : ℕ
  deriving Repr, DecidableEq

/-- Fields passed to `SessionManager.update_session` anywhere in the repository:
`status` and `workflow_status` (lines 218-221) and `status` alone
(`close_session`, line 196).  Merge semantics: present fields replace. -/
structure SessionUpdate where
  status : Option String := none
  workflow_status : Option String := none
  deriving Repr, DecidableEq

/-- A session document (`session_data` in `sessionmanager.create_session`).
`workflow_status` is absent until `update_session` first writes it. -/
structure Session where
  session_id : String
  user_id : String
  created_at : ℕ
  updated_at : ℕ
  status : String
  initial_data : InitialData
  workflow_steps : List WorkflowStep
  metadata : List (String × String)
  workflow_status : Option String := none
  deriving Repr, DecidableEq

/-- Request body of `POST /execute-trade` (`TradeRequest` in
`stock-trader/main.py`, lines 27-32). -/
structure TradeRequest where
  symbol : String
  action : String
  quantity : ℤ
  price : Option ℚ := none
  session_id : String
  deriving Repr, DecidableEq

/-- A successful trade payload as built by `execute_trade` in
`stock-trader/main.py`.  `total_value` and the portfolio fields are absent
from the HOLD response (lines 58-67) and present otherwise (lines 93-107). -/
structure TradeResult where
  trade_id : String
  symbol : String
  action : String
  quantity : ℤ
  price : ℚ
  status : String
  timestamp : ℕ
  risk_assessment : String
  total_value : Option ℚ := none
  cash_impact : Option ℚ := none
  position_change : Option ℤ := none
  deriving Repr, DecidableEq

/-- JSON body returned by the stock trader: a trade payload, or the
`{"error": ...}` payload for an action outside BUY/SELL/HOLD (line 71). -/
inductive TraderResponse where
  | result (trade : TradeResult)
  | error (message : String)
  deriving Repr, DecidableEq

/-- Python `trade_data.get("status")` on a trader response body. -/
def trader_status : TraderResponse → Option String
  | .result t => some t.status
  | .error _ => none

/-- An `analysis_history` document (`analysis_doc` in `sessionmanager.py`). -/
structure AnalysisDoc where
  analysis_id : String
  session_id : String
  symbol : String
  analysis_data : AnalysisData
  created_at : ℕ
  deriving Repr, DecidableEq

/-- A `trade_hostory` document (`trade_doc` in `sessionmanager.py`; the
collection-name typo is the source's). -/
structure TradeDoc where
  trade_id : String
  session_id : String
  trade_data : TraderResponse
  created_at : ℕ
  deriving Repr, DecidableEq

/-- The Firestore state used by `SessionManager`: three collections of
documents keyed by document id. -/
structure Store where
  sessions : List (String × Session)
  analyses : List (String × AnalysisDoc)
  trades : List (String × TradeDoc)
  deriving Repr, DecidableEq

def emptyStore : Store := ⟨[], [], []⟩

/-- Firestore `collection.document(key).get()`: the document at `key`. -/
def getDoc : List (String × α) → String → Option α
  | [], _ => none
  | p :: ps, k => if p.1 = k then some p.2 else getDoc ps k

/-- Firestore `collection.document(key).set(v)`: replace or insert. -/
def setDoc : List (String × α) → String → α → List (String × α)
  | [], k, v => [(k, v)]
  | p :: ps, k, v => if p.1 = k then (k, v) :: ps else p :: setDoc ps k v

/-- Stable insertion into a list sorted descending by `key`. -/
def insertDescBy (key : α → ℕ) (x : α) : List α → List α
  | [] => [x]
  | y :: ys => if key y ≤ key x then x :: y :: ys else y :: insertDescBy key x ys

/-- Stable sort, descending by `key`: models both a Firestore
`order_by(..., DESCENDING)` query and Python's stable
`list.sort(key=..., reverse=True)`. -/
def sortDescBy (key : α → ℕ) : List α → List α
  | [] => []
  | x :: xs => insertDescBy key x (sortDescBy key xs)

/-- `SessionManager.create_session` (`sessionmanager.py` lines 24-40).
The Firestore `.set` replaces any existing document with the same id.
The method has no try/except: a Firestore failure propagates to the caller
(modelled at the call sites). -/
def create_session (store : Store) (t : ℕ) (session_id user_id : String)
    (initial_data : InitialData) : Store × Session :=
  let session_data : Session :=
    { session_id := session_id
      user_id := user_id
      created_at := t
      updated_at := t
      status := "active"
      initial_data := initial_data
      workflow_steps := []
      metadata := [] }
  ({ store with sessions := setDoc store.sessions session_id session_data }, session_data)

/-- `SessionManager.get_session` (`sessionmanager.py` lines 42-51). -/
def get_session (store : Store) (session_id : String) : Option Session :=
  getDoc store.sessions session_id

/-- `SessionManager.update_session` (`sessionmanager.py` lines 53-64): merges
the given fields, always bumps `updated_at`, and catches every failure,
returning `False` (a Firestore `.update` on a missing document raises, which
is caught too; `fault` models any other raised Firestore error). -/
def update_session (fault : Bool) (store : Store) (t : ℕ) (session_id : String)
    (update_data : SessionUpdate) : Store × Bool :=
  if fault then (store, false)
  else
    match getDoc store.sessions session_id with
    | none => (store, false)
    | some s =>
      let s' : Session :=
        { s with
          updated_at := t
          status := update_data.status.getD s.status
          workflow_status :=
            match update_data.workflow_status with
            | some w => some w
            | none => s.workflow_status }
      ({ store with sessions := setDoc store.sessions session_id s' }, true)

/-- Firestore `ArrayUnion([x])` on an array field: appends `x` at the end
unless an equal element is already present. -/
def arrayUnion (steps : List WorkflowStep) (x : WorkflowStep) : List WorkflowStep :=
  if x ∈ steps then steps else steps ++ [x]

/-- `SessionManager.add_workflow_step` (`sessionmanager.py` lines 66-83):
stamps the step with the current time, appends it with `ArrayUnion`, bumps
`updated_at`, and catches every failure, returning `False`. -/
def add_workflow_step (fault : Bool) (store : Store) (t : ℕ) (session_id : String)
    (tag : String) (payload : StepPayload) : Store × Bool :=
  if fault then (store, false)
  else
    match getDoc store.sessions session_id with
    | none => (store, false)
    | some s =>
      let step_with_timestamp : WorkflowStep := { step := tag, payload := payload, timestamp := t }
      let s' : Session :=
        { s with
          workflow_steps := arrayUnion s.workflow_steps step_with_timestamp
          updated_at := t }
      ({ store with sessions := setDoc store.sessions session_id s' }, true)

/-- `SessionManager.save_analysis` (`sessionmanager.py` lines 85-100).
No try/except: a Firestore failure propagates to the caller. -/
def save_analysis (store : Store) (t : ℕ) (session_id symbol : String)
    (analysis_data : AnalysisData) : Store × String :=
  let analysis_id := session_id ++ "-" ++ symbol ++ "-" ++ toString t
  let analysis_doc : AnalysisDoc :=
    { analysis_id := analysis_id
      session_id := session_id
      symbol := symbol
      analysis_data := analysis_data
      created_at := t }
  ({ store with analyses := setDoc store.analyses analysis_id analysis_doc }, analysis_id)

/-- `SessionManager.save_trade` (`sessionmanager.py` lines 102-116).
No try/except: a Firestore failure propagates to the caller. -/
def save_trade (store : Store) (t : ℕ) (session_id : String)
    (trade_data : TraderResponse) : Store × String :=
  let trade_id :=
    match trade_data with
    | .result tr => tr.trade_id
    | .error _ => "trade-" ++ toString t
  let trade_doc : TradeDoc :=
    { trade_id := trade_id
      session_id := session_id
      trade_data := trade_data
      created_at := t }
  ({ store with trades := setDoc store.trades trade_id trade_doc }, trade_id)

/-- `SessionManager.get_user_sessions` (`sessionmanager.py` lines 118-131):
the user's sessions ordered by `created_at` descending, first `limit` of them. -/
def get_user_sessions (store : Store) (user_id : String) (limit : ℕ) : List Session :=
  (sortDescBy Session.created_at
    ((store.sessions.map Prod.snd).filter (fun s => s.user_id = user_id))).take limit

/-- `SessionManager.get_session_analysis_history` (`sessionmanager.py`
lines 133-145). -/
def get_session_analysis_history (store : Store) (session_id : String) : List AnalysisDoc :=
  sortDescBy AnalysisDoc.created_at
    ((store.analyses.map Prod.snd).filter (fun d => d.session_id = session_id))

/-- `SessionManager.get_session_trades` (`sessionmanager.py` lines 147-159). -/
def get_session_trades (store : Store) (session_id : String) : List TradeDoc :=
  sortDescBy TradeDoc.created_at
    ((store.trades.map Prod.snd).filter (fun d => d.session_id = session_id))

/-- Helper `get_sort_key` inside `get_user_trade_history` (`sessionmanager.py`
lines 177-187).  In the source the elements of `all_trades` are the per-session
*lists* produced by `list.append` at line 173, not trade dicts, so the
`isinstance(trade, dict)` test is false and the function returns
`datetime.min` (modelled as clock value 0) for every element. -/
def get_sort_key (trade : List TradeDoc) : ℕ := 0

/-- `SessionManager.get_user_trade_history` (`sessionmanager.py` lines
161-192): loads up to 100 sessions of the user, `append`s each session's trade
list to `all_trades` (producing a list of lists), sorts it stably by
`get_sort_key` descending, and truncates to `limit` elements. -/
def get_user_trade_history (store : Store) (user_id : String) (limit : ℕ) :
    List (List TradeDoc) :=
  let user_sessions := get_user_sessions store user_id 100
  let session_ids := user_sessions.map Session.session_id
  if session_ids.isEmpty then []
  else
    let all_trades := session_ids.map (fun sid => get_session_trades store sid)
    (sortDescBy get_sort_key all_trades).take limit

/-- `SessionManager.close_session` (`sessionmanager.py` lines 194-196). -/
def close_session (fault : Bool) (store : Store) (t : ℕ) (session_id : String) :
    Store × Bool :=
  update_session fault store t session_id { status := some "closed" }

/-- `execute_trade` in `stock-trader/main.py` (lines 51-112).  `risk_llm` is
the outcome of the Vertex AI risk-assessment call (its failure is caught at
lines 82-84), `t` the current clock used for timestamps and generated ids.
A `HOLD` action returns the fixed no-op payload; an action outside
BUY/SELL/HOLD returns the error payload; otherwise the price defaults to
150.00 whenever the requested price is null or falsy (0). -/
def execute_trade (request : TradeRequest) (risk_llm : LLMResult) (t : ℕ) :
    TraderResponse :=
  if request.action = "HOLD" then
    .result
      { trade_id := "HOLD-" ++ toString t
        symbol := request.symbol
        action := "HOLD"
        quantity := 0
        price := 0
        status := "NO_ACTION"
        timestamp := t
        risk_assessment := "No trade executed - HOLD recommendation" }
  else if ¬(request.action = "BUY" ∨ request.action = "SELL") then
    .error "Invalid action. Use BUY, SELL, or HOLD"
  else
    let current_price : ℚ :=
      match request.price with
      | none => 150
      | some p => if p = 0 then 150 else p
    let risk_assessment :=
      match risk_llm with
      | .ok text => String.mk (pyStrip text.data)
      | .failure => "Risk assessment unavailable. Proceeding with " ++ request.action ++ " trade."
    let trade_id := request.action ++ "-" ++ request.symbol ++ "-" ++ toString t
    let total_value := current_price * (request.quantity : ℚ)
    .result
      { trade_id := trade_id
        symbol := request.symbol
        action := request.action
        quantity := request.quantity
        price := current_price
        status := "EXECUTED"
        timestamp := t
        risk_assessment := risk_assessment
        total_value := some total_value
        cash_impact := some (if request.action = "BUY" then -total_value else total_value)
        position_change :=
          some (if request.action = "BUY" then request.quantity else -request.quantity) }

/-- `decide_execution_with_llm` in `orchestrator/main.py` (lines 304-343).
Returns `False` immediately when `auto_execute` is false.  Otherwise it asks
the reasoning model and accepts exactly a response whose stripped, uppercased
text starts with `YES`; if the reasoning call fails it falls back to
`confidence > 0.7 and recommendation != 'HOLD'` (with `.get` defaults:
missing confidence reads as 0, a missing recommendation is not `'HOLD'`). -/
def decide_execution_with_llm (analysis_data : AnalysisData) (quantity : ℤ)
    (auto_execute : Bool) (llm : LLMResult) : Bool :=
  if !auto_execute then false
  else
    match llm with
    | .ok text => pyStartsWith (pyUpper (pyStrip text.data)) "YES".data
    | .failure =>
      if analysis_data.confidence.getD 0 > 7/10 ∧ analysis_data.recommendation ≠ some "HOLD"
      then true else false

/-- `generate_workflow_summary` in `orchestrator/main.py` (lines 345-374):
the reasoning model's stripped text, or on failure the templated one-line
summary. -/
def generate_workflow_summary (symbol : String) (analysis_data : AnalysisData)
    (_trade_data : Option TraderResponse) (status : String) (llm : LLMResult) : String :=
  match llm with
  | .ok text => String.mk (pyStrip text.data)
  | .failure =>
    "Analyzed " ++ symbol ++ ": " ++ pyShowOpt analysis_data.recommendation ++
      " recommendation. Status: " ++ status

/-- The trade request the engine sends to the stock trader
(`orchestrator/main.py` lines 180-186): note `price` is always null. -/
def engine_trade_request (symbol recommendation : String) (quantity : ℤ)
    (session_id : String) : TradeRequest :=
  { symbol := symbol
    action := recommendation
    quantity := quantity
    price := none
    session_id := session_id }

/-- Session-store write call sites inside `orchestrate_trading`, used to inject
a Firestore failure at a chosen write. -/
inductive WriteOp where
  | createSession
  | stepStarted
  | stepAnalysisRequested
  | stepAnalysisCompleted
  | saveAnalysis
  | stepTradeRequested
  | saveTrade
  | stepTradeExecuted
  | updateSession
  deriving Repr, DecidableEq

/-- Environment of one `POST /trading-workflow` request: configuration,
presence of the session manager, the outcome of each external capability
call, and which Firestore writes fail. -/
structure Env where
  market_analyst_url_set : Bool
  stock_trader_url_set : Bool
  session_manager : Bool
  fault : WriteOp → Bool
  analysis : Except String AnalysisData
  trade : TradeRequest → Except String TraderResponse
  decide_llm : LLMResult
  summary_llm : LLMResult

/-- Response body of a successful `POST /trading-workflow`
(`orchestrator/main.py` lines 231-240). -/
structure WorkflowResult where
  session_id : String
  symbol : String
  user_id : String
  analysis : AnalysisData
  trade_result : Option TraderResponse
  workflow_status : String
  timestamp : ℕ
  summary : String
  deriving Repr, DecidableEq

/-- What the endpoint handler produces: a success body, an
`HTTPException(status_code, detail)`, or an exception raised outside every
handler (propagating to the framework as an internal error). -/
inductive HttpOutcome where
  | ok (result : WorkflowResult)
  | httpError (status_code : ℕ) (detail : String)
  | raised (message : String)
  deriving Repr, DecidableEq

/-- Literal detail string of the missing-URL `HTTPException`
(`orchestrator/main.py` lines 108-111, typo included). -/
def configErrorDetail : String :=
  "Service URLs not configured. Set MARKET_ANALYST_URL and STOCKE_TRADER_URL environment variables."

/-- The session id resolution of `orchestrate_trading` (`orchestrator/main.py`
line 88): the caller-supplied id, or the generated
`session-{user_id}-{symbol}-{unix_ts}` id. -/
def resolved_session_id (request : TradingRequest) (t0 : ℕ) : String :=
  match request.session_id with
  | some sid => sid
  | none => "session-" ++ request.user_id ++ "-" ++ request.symbol ++ "-" ++ toString t0

/-- `orchestrate_trading` in `orchestrator/main.py` (lines 82-244), the
`POST /trading-workflow` handler, as a function of the request, the
environment, the initial store and the base clock `t0`.  Each persistence
call site uses a distinct later tick `t0+k`.  Control flow mirrors the
source: session creation and the `workflow_started` step run before the
URL check and outside the try block (a `create_session` failure is uncaught);
inside the try block, a failed capability call or a raising Firestore write
(`save_analysis`, `save_trade`) is caught by the catch-all at line 242 and
becomes a 500 `HTTPException`; the f-string at line 139 indexes
`analysis_data['recommendation']` and `['confidence']`, raising `KeyError`
when either key is missing. -/
def orchestrate_trading (env : Env) (request : TradingRequest) (store0 : Store)
    (t0 : ℕ) : HttpOutcome × Store :=
  let session_id := resolved_session_id request t0
  if env.session_manager && env.fault .createSession then
    (.raised "create_session failed", store0)
  else
    let st1 :=
      if env.session_manager then
        (create_session store0 (t0+1) session_id request.user_id
          { symbol := request.symbol
            quantiry := request.quantity
            auto_execute := request.auto_execute }).1
      else store0
    let st2 :=
      if env.session_manager then
        (add_workflow_step (env.fault .stepStarted) st1 (t0+2) session_id
          "workflow_started" (.ofRequest request)).1
      else st1
    if !env.market_analyst_url_set || !env.stock_trader_url_set then
      (.httpError 500 configErrorDetail, st2)
    else
      let st3 :=
        if env.session_manager then
          (add_workflow_step (env.fault .stepAnalysisRequested) st2 (t0+3) session_id
            "analysis_requested" (.ofSymbol request.symbol)).1
        else st2
      match env.analysis with
      | .error msg => (.httpError 500 ("Workflow orchestration error: " ++ msg), st3)
      | .ok analysis_data =>
        match analysis_data.recommendation with
        | none => (.httpError 500 "Workflow orchestration error: \x27recommendation\x27", st3)
        | some recommendation =>
          match analysis_data.confidence with
          | none => (.httpError 500 "Workflow orchestration error: \x27confidence\x27", st3)
          | some _ =>
            if env.session_manager && env.fault .saveAnalysis then
              (.httpError 500 "Workflow orchestration error: save_analysis failed", st3)
            else
              let saveA :=
                if env.session_manager then
                  some (save_analysis st3 (t0+4) session_id request.symbol analysis_data)
                else none
              let st4 := (saveA.map Prod.fst).getD st3
              let analysis_id := (saveA.map Prod.snd).getD ""
              let st5 :=
                if env.session_manager then
                  (add_workflow_step (env.fault .stepAnalysisCompleted) st4 (t0+5) session_id
                    "analysis_completed"
                    (.ofAnalysis analysis_id analysis_data.recommendation)).1
                else st4
              let should_execute :=
                decide_execution_with_llm analysis_data request.quantity
                  request.auto_execute env.decide_llm
              let branch : (HttpOutcome × Store) ⊕ (String × Option TraderResponse × Store) :=
                if should_execute && request.auto_execute then
                  let st6 :=
                    if env.session_manager then
                      (add_workflow_step (env.fault .stepTradeRequested) st5 (t0+6) session_id
                        "trade_requested" (.ofAction analysis_data.recommendation)).1
                    else st5
                  match env.trade
                    (engine_trade_request request.symbol recommendation
                      request.quantity session_id) with
                  | .error msg =>
                    .inl (.httpError 500 ("Workflow orchestration error: " ++ msg), st6)
                  | .ok trade_data =>
                    if env.session_manager && env.fault .saveTrade then
                      .inl (.httpError 500 "Workflow orchestration error: save_trade failed", st6)
                    else
                      let saveT :=
                        if env.session_manager then
                          some (save_trade st6 (t0+7) session_id trade_data)
                        else none
                      let st7 := (saveT.map Prod.fst).getD st6
                      let trade_id := (saveT.map Prod.snd).getD ""
                      let st8 :=
                        if env.session_manager then
                          (add_workflow_step (env.fault .stepTradeExecuted) st7 (t0+8) session_id
                            "trade_executed" (.ofTrade trade_id (trader_status trade_data))).1
                        else st7
                      .inr ("COMPLETED", some trade_data, st8)
                else if !request.auto_execute then
                  .inr ("ANALYSIS_ONLY", none, st5)
                else
                  .inr ("EXECUTION_DECLINED", none, st5)
              match branch with
              | .inl out => out
              | .inr (workflow_status, trade_data, st8) =>
                let st9 :=
                  if env.session_manager then
                    (update_session (env.fault .updateSession) st8 (t0+9) session_id
                      { status := some "completed", workflow_status := some workflow_status }).1
                  else st8
                let summary :=
                  generate_workflow_summary request.symbol analysis_data trade_data
                    workflow_status env.summary_llm
                (.ok
                  { session_id := session_id
                    symbol := request.symbol
                    user_id := request.user_id
                    analysis := analysis_data
                    trade_result := trade_data
                    workflow_status := workflow_status
                    timestamp := t0+10
                    summary := summary }, st9)

/-- One session-store operation, as issued by the engine or the query surface:
the `SessionManager` methods that write.  A `fault` flag on the methods that
catch Firestore failures internally; the methods without a try/except leave
the store unchanged when the underlying write raises, so a faulted call is
the same store transition as a skipped one. -/
inductive StoreOp where
  | createSessionOp (session_id user_id : String) (initial_data : InitialData)
  | addStepOp (fault : Bool) (session_id tag : String) (payload : StepPayload)
  | updateSessionOp (fault : Bool) (session_id : String) (upd : SessionUpdate)
  | saveAnalysisOp (session_id symbol : String) (d : AnalysisData)
  | saveTradeOp (session_id : String) (d : TraderResponse)
  | closeSessionOp (fault : Bool) (session_id : String)
  deriving Repr, DecidableEq

/-- Apply one store operation at the current clock; the clock advances. -/
def applyOp : Store × ℕ → StoreOp → Store × ℕ
  | (store, t), .createSessionOp sid uid d => ((create_session store t sid uid d).1, t+1)
  | (store, t), .addStepOp f sid tag p => ((add_workflow_step f store t sid tag p).1, t+1)
  | (store, t), .updateSessionOp f sid u => ((update_session f store t sid u).1, t+1)
  | (store, t), .saveAnalysisOp sid sym d => ((save_analysis store t sid sym d).1, t+1)
  | (store, t), .saveTradeOp sid d => ((save_trade store t sid d).1, t+1)
  | (store, t), .closeSessionOp f sid => ((close_session f store t sid).1, t+1)

/-- Run a sequence of store operations from a state. -/
def runFrom (stc : Store × ℕ) (ops : List StoreOp) : Store × ℕ :=
  ops.foldl applyOp stc

/-- Run a sequence of store operations from the empty store. -/
def runOps (ops : List StoreOp) : Store × ℕ :=
  runFrom (emptyStore, 0) ops

/-- The recorded step log of a session (empty when the session is absent). -/
def sessionSteps (store : Store) (session_id : String) : List WorkflowStep :=
  match getDoc store.sessions session_id with
  | some s => s.workflow_steps
  | none => []

/-- Guard of one operation in a run: a `createSessionOp` must target a
session id that does not exist in the current store. -/
def freshGuard : Store × ℕ → StoreOp → Bool
  | stc, .createSessionOp sid _ _ => (getDoc stc.1.sessions sid).isNone
  | _, _ => true

/-- Check of a dynamic run: every `createSessionOp` in the sequence targets a
session id that does not exist at that point of the run. -/
def createsFresh : Store × ℕ → List StoreOp → Bool
  | _, [] => true
  | stc, op :: rest => freshGuard stc op && createsFresh (applyOp stc op) rest

/-- Clock/order invariant of a store state: in every session the recorded
step timestamps are below the current clock and non-decreasing in log order. -/
def StepsOK (stc : Store × ℕ) : Prop :=
  ∀ sid s, getDoc stc.1.sessions sid = some s →
    (∀ w ∈ s.workflow_steps, w.timestamp < stc.2) ∧
    List.Chain' (fun a b => a.timestamp ≤ b.timestamp) s.workflow_steps

/-- Projection: the workflow status of a successful endpoint outcome. -/
def workflowStatusOf : HttpOutcome → Option String
  | .ok r => some r.workflow_status
  | _ => none

/-- Projection: the trade result of a successful endpoint outcome. -/
def tradeResultOf : HttpOutcome → Option (Option TraderResponse)
  | .ok r => some r.trade_result
  | _ => none

/-! Concrete fixtures used by the closed counterexample and witness theorems. -/

/-- A fault assignment under which every Firestore write succeeds. -/
def faultFree : WriteOp → Bool := fun _ => false

/-- A fault assignment under which exactly the `save_analysis` write raises. -/
def faultOnSaveAnalysis : WriteOp → Bool := fun op => op = .saveAnalysis

def initStub : InitialData := { symbol := "AAPL", quantiry := 100, auto_execute := true }

def adataBUY : AnalysisData :=
  { recommendation := some "BUY", confidence := some (85/100), llm_reasoning := some "strong technicals" }

def adataHOLD : AnalysisData :=
  { recommendation := some "HOLD", confidence := some (95/100), llm_reasoning := some "uncertain market" }

/-- A session of user `u1` holding no steps, for the trade-history fixtures. -/
def sessionU1 : Session :=
  { session_id := "s1"
    user_id := "u1"
    created_at := 1
    updated_at := 1
    status := "active"
    initial_data := initStub
    workflow_steps := []
    metadata := [] }

/-- An earlier trade of session `s1` (created at tick 5). -/
def tradeDocEarly : TradeDoc :=
  { trade_id := "tr-early", session_id := "s1", trade_data := .error "stub", created_at := 5 }

/-- A later trade of session `s1` (created at tick 9). -/
def tradeDocLate : TradeDoc :=
  { trade_id := "tr-late", session_id := "s1", trade_data := .error "stub", created_at := 9 }

/-- A store with one session of `u1` and two trades in it. -/
def storeTwoTrades : Store :=
  { sessions := [("s1", sessionU1)]
    analyses := []
    trades := [("tr-early", tradeDocEarly), ("tr-late", tradeDocLate)] }

/-- A pre-existing, completed session with one recorded step, to be hit by a
duplicate `create_session`. -/
def sessionExisting : Session :=
  { session_id := "dup"
    user_id := "olduser"
    created_at := 3
    updated_at := 4
    status := "completed"
    initial_data := { symbol := "TSLA", quantiry := 5, auto_execute := false }
    workflow_steps := [{ step := "workflow_started", payload := .ofSymbol "TSLA", timestamp := 3 }]
    metadata := []
    workflow_status := some "ANALYSIS_ONLY" }

def storeExisting : Store := { sessions := [("dup", sessionExisting)], analyses := [], trades := [] }

/-- Request fixture targeting session `sess-af`. -/
def reqAnalysisFail : TradingRequest :=
  { symbol := "AAPL", user_id := "u1", session_id := some "sess-af", auto_execute := true }

/-- Environment fixture in which the Analysis Provider call fails. -/
def envAnalysisFail : Env :=
  { market_analyst_url_set := true
    stock_trader_url_set := true
    session_manager := true
    fault := faultFree
    analysis := .error "connection refused"
    trade := fun _ => .error "unused"
    decide_llm := .failure
    summary_llm := .failure }

/-- A fault assignment failing exactly the writes whose failures the session
manager catches internally (step appends and session updates). -/
def faultTolerantWrites : WriteOp → Bool
  | .createSession => false
  | .saveAnalysis => false
  | .saveTrade => false
  | _ => true

/-- Request fixture for an analysis-only run (`auto_execute = false`). -/
def reqAnalysisOnly : TradingRequest :=
  { symbol := "AAPL", user_id := "u1", session_id := some "sess-ao", auto_execute := false }

/-- Environment fixture in which the Analysis Provider succeeds with a BUY
recommendation and the reasoning capability is down. -/
def envAnalysisOk : Env :=
  { market_analyst_url_set := true
    stock_trader_url_set := true
    session_manager := true
    fault := faultFree
    analysis := .ok adataBUY
    trade := fun r => .ok (execute_trade r .failure 42)
    decide_llm := .failure
    summary_llm := .failure }

/-- Request fixture with auto-execution enabled, targeting session `sess-ae`. -/
def reqAutoExec : TradingRequest :=
  { symbol := "AAPL", user_id := "u1", session_id := some "sess-ae", auto_execute := true }

/-- Environment fixture: HOLD analysis, reasoning model answers affirmatively,
stock trader behaves as `execute_trade`. -/
def envHoldYes : Env :=
  { market_analyst_url_set := true
    stock_trader_url_set := true
    session_manager := true
    fault := faultFree
    analysis := .ok adataHOLD
    trade := fun r => .ok (execute_trade r .failure 42)
    decide_llm := .ok "YES - momentum is strong"
    summary_llm := .failure }

/-- The same environment with the reasoning capability down. -/
def envHoldFallback : Env := { envHoldYes with decide_llm := .failure }

/-- Environment fixture: analysis endpoint configured, execution endpoint
unconfigured. -/
def envNoTraderUrl : Env := { envAnalysisOk with stock_trader_url_set := false }

/-- Environment fixture: BUY analysis and an affirmative reasoning response,
so the engine executes the trade through `execute_trade`. -/
def envBuyYes : Env := { envAnalysisOk with decide_llm := .ok "YES - strong setup" }

/-- The trade payload `execute_trade` produces for the engine's BUY request of
100 shares at tick 42 with the risk capability down. -/
def trBuy : TradeResult :=
  { trade_id := "BUY-AAPL-42"
    symbol := "AAPL"
    action := "BUY"
    quantity := 100
    price := 150
    status := "EXECUTED"
    timestamp := 42
    risk_assessment := "Risk assessment unavailable. Proceeding with BUY trade."
    total_value := some (150 * ((100 : ℤ) : ℚ))
    cash_impact := some (-(150 * ((100 : ℤ) : ℚ)))
    position_change := some 100 }

/-- The workflow result of the `envBuyYes` run. -/
def resultBuy : WorkflowResult :=
  { session_id := "sess-ae"
    symbol := "AAPL"
    user_id := "u1"
    analysis := adataBUY
    trade_result := some (.result trBuy)
    workflow_status := "COMPLETED"
    timestamp := 10
    summary := "Analyzed AAPL: BUY recommendation. Status: COMPLETED" }

/-- Store-operation sequence: create session `s`, append one step. -/
def opsCreateThenStep : List StoreOp :=
  [.createSessionOp "s" "u" initStub,
   .addStepOp false "s" "workflow_started" (.ofSymbol "AAPL")]

/-- The same sequence followed by a duplicate create of the same session id. -/
def opsDuplicateCreate : List StoreOp :=
  opsCreateThenStep ++ [.createSessionOp "s" "u" initStub]

/-! ## Shared lemmas -/

theorem getDoc_setDoc_self (l : List (String × α)) (k : String) (v : α) :
    getDoc (setDoc l k v) k = some v := by
  induction l with
  | nil => simp [getDoc, setDoc]
  | cons p ps ih => by_cases h : p.1 = k <;> simp [getDoc, setDoc, h, ih]

theorem getDoc_setDoc_ne (l : List (String × α)) (k k' : String) (v : α)
    (h : k' ≠ k) :
    getDoc (setDoc l k v) k' = getDoc l k' := by
  induction l with
  | nil => simp [getDoc, setDoc, Ne.symm h]
  | cons p ps ih =>
    by_cases hpk : p.1 = k
    · subst hpk
      simp [getDoc, setDoc, Ne.symm h]
    · by_cases hpk' : p.1 = k' <;> simp [getDoc, setDoc, hpk, hpk', h, ih]

theorem create_session_trades (store : Store) (t : ℕ) (sid uid : String)
    (d : InitialData) :
    ((create_session store t sid uid d).1).trades = store.trades := rfl

theorem add_workflow_step_trades (f : Bool) (store : Store) (t : ℕ)
    (sid tag : String) (p : StepPayload) :
    ((add_workflow_step f store t sid tag p).1).trades = store.trades := by
  unfold add_workflow_step
  split
  · rfl
  · split <;> rfl

theorem update_session_trades (f : Bool) (store : Store) (t : ℕ)
    (sid : String) (u : SessionUpdate) :
    ((update_session f store t sid u).1).trades = store.trades := by
  unfold update_session
  split
  · rfl
  · split <;> rfl

theorem save_analysis_trades (store : Store) (t : ℕ) (sid sym : String)
    (d : AnalysisData) :
    ((save_analysis store t sid sym d).1).trades = store.trades := rfl

theorem workflow_error_ne_config (msg : String) :
    "Workflow orchestration error: " ++ msg ≠
      "Service URLs not configured. Set MARKET_ANALYST_URL and STOCKE_TRADER_URL environment variables." := by
  intro h
  obtain ⟨d⟩ := msg
  have h2 := congrArg String.data h
  simp at h2

/-! ## C1 -/

/-- C1: on Reasoning Provider failure with `autoExecute = true`, the fallback
rule of `decide_execution_with_llm` returns true iff `confidence > 0.7` and
the recommendation is not HOLD; and for every analysis input and reasoning
outcome whatsoever, the decision is false whenever `autoExecute = false`. -/
theorem decideExecution_fallback_iff_and_auto_gate
    (c : ℚ) (r reasoning : Option String) (q q' : ℤ)
    (a : AnalysisData) (llm : LLMResult) :
    (decide_execution_with_llm ⟨r, some c, reasoning⟩ q true .failure = true
      ↔ (c > 7/10 ∧ r ≠ some "HOLD"))
    ∧ decide_execution_with_llm a q' false llm = false := by
  constructor
  · simp [decide_execution_with_llm]
  · simp [decide_execution_with_llm]

/-! ## C6 -/

/-- C6: `get_user_trade_history` does not return a flat, `created_at`-sorted,
`limit`-truncated sequence of trade records.  On a store holding one session
of the user with two trades, and `limit = 1`, it returns a single *nested*
list still containing both trade records (the source `append`s each
per-session list instead of extending, sorts the lists by a constant key, and
truncates the list of lists). -/
theorem user_trade_history_returns_nested_lists :
    get_user_trade_history storeTwoTrades "u1" 1 = [[tradeDocLate, tradeDocEarly]] := by
  rfl

/-! ## C7 -/

/-- C7 counterexample: `create_session` on an id that already exists does not
fail and does not leave the stored session unchanged: the document is
silently replaced. -/
theorem createSession_duplicate_overwrites_cex :
    getDoc ((create_session storeExisting 10 "dup" "newuser" initStub).1).sessions "dup"
      ≠ some sessionExisting := by
  decide

/-- C7 amended: `create_session` with an id that already exists succeeds and
silently overwrites the stored session with a fresh `active` session holding
the new caller data and an empty step log (last-write-wins; no ConflictError
is raised). -/
theorem createSession_duplicate_lastWriteWins
    (store : Store) (t : ℕ) (sid uid : String) (d : InitialData) (s0 : Session)
    (h : getDoc store.sessions sid = some s0) :
    getDoc ((create_session store t sid uid d).1).sessions sid =
      some
        { session_id := sid
          user_id := uid
          created_at := t
          updated_at := t
          status := "active"
          initial_data := d
          workflow_steps := []
          metadata := [] } := by
  simp [create_session, getDoc_setDoc_self]

/-- C7 witness: the amended overwrite behaviour at the concrete fixture. -/
theorem createSession_duplicate_lastWriteWins_witness :
    getDoc ((create_session storeExisting 10 "dup" "newuser" initStub).1).sessions "dup" =
      some
        { session_id := "dup"
          user_id := "newuser"
          created_at := 10
          updated_at := 10
          status := "active"
          initial_data := initStub
          workflow_steps := []
          metadata := [] } :=
  createSession_duplicate_lastWriteWins storeExisting 10 "dup" "newuser" initStub
    sessionExisting (by decide)

/-! ## C9 -/

/-- C9 counterexample: across a sequence of store operations containing a
duplicate `create_session`, the step log of session `s` shrinks: after
`create; addStep; create` it is strictly shorter than after `create; addStep`,
refuting length non-decrease over arbitrary engine/store operation sequences. -/
theorem workflow_steps_shrink_on_recreate_cex :
    (sessionSteps (runOps opsDuplicateCreate).1 "s").length
      < (sessionSteps (runOps opsCreateThenStep).1 "s").length := by
  decide

/-! ## C2 -/

/-- C2 counterexample: on a run in which the Analysis Provider fails, no
`FAILED` step is appended, the persisted session remains in status `active`
(it does not transition to a failed status), and no trade record exists. -/
theorem analysis_failure_no_failed_step_cex :
    (∀ w ∈ sessionSteps (orchestrate_trading envAnalysisFail reqAnalysisFail emptyStore 0).2 "sess-af",
        w.step ≠ "FAILED")
    ∧ (getDoc ((orchestrate_trading envAnalysisFail reqAnalysisFail emptyStore 0).2).sessions
        "sess-af").map Session.status = some "active"
    ∧ ((orchestrate_trading envAnalysisFail reqAnalysisFail emptyStore 0).2).trades = [] := by
  decide

/-- C2 amended: when the Analysis Provider call fails (non-success or
transport failure), the engine surfaces a 500 error embedding the exception
text and creates no trade record, but it appends no `FAILED` step — the step
log holds exactly the `workflow_started` and `analysis_requested` steps — and
the persisted session stays in status `active`. -/
theorem analysis_failure_surfaces_500_no_failed_step
    (env : Env) (request : TradingRequest) (store0 : Store) (t0 : ℕ) (msg : String)
    (hsm : env.session_manager = true)
    (hnf : ∀ op, env.fault op = false)
    (hm : env.market_analyst_url_set = true)
    (hst : env.stock_trader_url_set = true)
    (ha : env.analysis = .error msg) :
    (orchestrate_trading env request store0 t0).1 =
        .httpError 500 ("Workflow orchestration error: " ++ msg)
    ∧ ((orchestrate_trading env request store0 t0).2).trades = store0.trades
    ∧ sessionSteps (orchestrate_trading env request store0 t0).2 (resolved_session_id request t0) =
        [{ step := "workflow_started", payload := .ofRequest request, timestamp := t0+2 },
         { step := "analysis_requested", payload := .ofSymbol request.symbol, timestamp := t0+3 }]
    ∧ (∀ w ∈ sessionSteps (orchestrate_trading env request store0 t0).2
          (resolved_session_id request t0), w.step ≠ "FAILED")
    ∧ (getDoc ((orchestrate_trading env request store0 t0).2).sessions
        (resolved_session_id request t0)).map Session.status = some "active" := by
  refine ⟨?_, ?_, ?_, ?_, ?_⟩ <;>
    simp [orchestrate_trading, hsm, hnf, hm, hst, ha, create_session, add_workflow_step,
      arrayUnion, getDoc_setDoc_self, sessionSteps]

/-- C2 witness: the amended behaviour at the concrete fixture. -/
theorem analysis_failure_surfaces_500_witness :
    (orchestrate_trading envAnalysisFail reqAnalysisFail emptyStore 0).1 =
      .httpError 500 ("Workflow orchestration error: " ++ "connection refused") :=
  (analysis_failure_surfaces_500_no_failed_step envAnalysisFail reqAnalysisFail emptyStore 0
    "connection refused" rfl (fun _ => rfl) rfl rfl rfl).1

/-! ## C3 -/

/-- C3 counterexample: a failing `save_analysis` write aborts the workflow
with a 500 error, while the identical run with all writes succeeding reaches
the terminal status ANALYSIS_ONLY — refuting that every Session Store write
failure leaves the run reaching the same terminal status. -/
theorem save_analysis_failure_aborts_cex :
    (orchestrate_trading { envAnalysisOk with fault := faultOnSaveAnalysis }
        reqAnalysisOnly emptyStore 0).1
      = .httpError 500 "Workflow orchestration error: save_analysis failed"
    ∧ workflowStatusOf (orchestrate_trading envAnalysisOk reqAnalysisOnly emptyStore 0).1
      = some "ANALYSIS_ONLY" := by
  decide

/-- C3 amended: failures of the Session Store writes whose exceptions the
session manager catches internally — the step appends and the session update —
never change the outcome returned to the caller (nor does the initial store
contents); only `create_session`, `save_analysis` and `save_trade` failures
can abort a run.  Two runs whose fault assignments agree on those three
writes produce the same endpoint outcome. -/
theorem tolerant_write_faults_preserve_outcome
    (env : Env) (f g : WriteOp → Bool) (request : TradingRequest)
    (store store' : Store) (t : ℕ)
    (hfc : f .createSession = g .createSession)
    (hfa : f .saveAnalysis = g .saveAnalysis)
    (hft : f .saveTrade = g .saveTrade) :
    (orchestrate_trading { env with fault := f } request store t).1 =
    (orchestrate_trading { env with fault := g } request store' t).1 := by
  simp only [orchestrate_trading, hfc, hfa, hft]
  cases hsm : env.session_manager <;>
  cases hcg : g WriteOp.createSession <;>
  cases hmu : env.market_analyst_url_set <;>
  cases hsu : env.stock_trader_url_set <;>
  (try simp [hsm, hcg, hmu, hsu]) <;>
  (try rfl) <;>
  rcases han : env.analysis with m | ad <;>
  (try simp [han]) <;>
  (try rfl) <;>
  rcases hrec : ad.recommendation with _ | rec <;>
  (try simp [hrec]) <;>
  (try rfl) <;>
  rcases hconf : ad.confidence with _ | c <;>
  (try simp [hconf]) <;>
  (try rfl) <;>
  cases hsa : g WriteOp.saveAnalysis <;>
  (try simp [hsa]) <;>
  (try rfl) <;>
  cases hse : decide_execution_with_llm ad request.quantity request.auto_execute env.decide_llm <;>
  cases hau : request.auto_execute <;>
  (try simp [hse, hau]) <;>
  (try rfl) <;>
  rcases htr : env.trade (engine_trade_request request.symbol rec request.quantity
      (resolved_session_id request t)) with m2 | td <;>
  (try simp [htr]) <;>
  (try rfl) <;>
  cases hstr : g WriteOp.saveTrade <;>
  (try simp [hstr]) <;>
  (try rfl)

/-- C3 witness: failing every tolerated write changes nothing in the outcome
of the concrete analysis-only run. -/
theorem tolerant_write_faults_preserve_outcome_witness :
    (orchestrate_trading { envAnalysisOk with fault := faultTolerantWrites }
        reqAnalysisOnly emptyStore 0).1 =
    (orchestrate_trading { envAnalysisOk with fault := faultFree }
        reqAnalysisOnly storeTwoTrades 0).1 :=
  tolerant_write_faults_preserve_outcome envAnalysisOk faultTolerantWrites faultFree
    reqAnalysisOnly emptyStore storeTwoTrades 0 rfl rfl rfl

/-! ## C4 -/

/-- C4 counterexample: with recommendation HOLD, `autoExecute = true` and a
Reasoning Provider response starting with an affirmative token, the decision
policy returns *true*, the run reaches status COMPLETED, and a trade record
is created — refuting that the decision is false for HOLD under every
Reasoning Provider behaviour. -/
theorem hold_with_affirmative_llm_cex :
    decide_execution_with_llm adataHOLD 100 true (.ok "YES - momentum is strong") = true
    ∧ workflowStatusOf (orchestrate_trading envHoldYes reqAutoExec emptyStore 0).1
        = some "COMPLETED"
    ∧ ((orchestrate_trading envHoldYes reqAutoExec emptyStore 0).2).trades ≠ [] := by
  decide

/-- C4 amended: with recommendation HOLD and `autoExecute = true`, *when the
Reasoning Provider fails* the fallback decision is false regardless of the
confidence, the run terminates with status EXECUTION_DECLINED, and no trade
record is created; the guarantee does not extend to successful Reasoning
Provider responses, which are accepted whenever they start with YES. -/
theorem hold_fallback_always_declines
    (env : Env) (request : TradingRequest) (store0 : Store) (t0 : ℕ)
    (ad : AnalysisData) (c : ℚ)
    (hauto : request.auto_execute = true)
    (hsm : env.session_manager = true)
    (hnf : ∀ op, env.fault op = false)
    (hmu : env.market_analyst_url_set = true)
    (hsu : env.stock_trader_url_set = true)
    (han : env.analysis = .ok ad)
    (hrec : ad.recommendation = some "HOLD")
    (hconf : ad.confidence = some c)
    (hllm : env.decide_llm = .failure) :
    decide_execution_with_llm ad request.quantity request.auto_execute env.decide_llm = false
    ∧ workflowStatusOf (orchestrate_trading env request store0 t0).1 = some "EXECUTION_DECLINED"
    ∧ ((orchestrate_trading env request store0 t0).2).trades = store0.trades := by
  have hdec2 : decide_execution_with_llm ad request.quantity true .failure = false := by
    simp [decide_execution_with_llm, hrec]
  have hdec :
      decide_execution_with_llm ad request.quantity request.auto_execute env.decide_llm
        = false := by
    rw [hauto, hllm]; exact hdec2
  refine ⟨hdec, ?_, ?_⟩ <;>
    simp [orchestrate_trading, hsm, hnf, hmu, hsu, han, hrec, hconf, hllm, hdec, hdec2,
      hauto, workflowStatusOf, create_session_trades, add_workflow_step_trades,
      update_session_trades, save_analysis_trades]

/-- C4 witness: the amended behaviour at the concrete HOLD fixture. -/
theorem hold_fallback_always_declines_witness :
    decide_execution_with_llm adataHOLD 100 true .failure = false
    ∧ workflowStatusOf (orchestrate_trading envHoldFallback reqAutoExec emptyStore 0).1
        = some "EXECUTION_DECLINED"
    ∧ ((orchestrate_trading envHoldFallback reqAutoExec emptyStore 0).2).trades = [] :=
  hold_fallback_always_declines envHoldFallback reqAutoExec emptyStore 0 adataHOLD
    (95/100) rfl rfl (fun _ => rfl) rfl rfl rfl rfl rfl rfl

/-! ## C5 -/

/-- C5: for runs that complete without upstream error (analysis succeeded
with both keys present, trader responds, store writes succeed): with
`autoExecute = false` the final status is ANALYSIS_ONLY, the result carries
no trade, and the run is identical under every Execution Provider behaviour
(it is never called); with `autoExecute = true` and a false decision the
status is EXECUTION_DECLINED with no trade; with a true decision the trader's
response is returned with status COMPLETED; and in every case the persisted
session status is set to `completed`. -/
theorem terminal_status_policy
    (env : Env) (request : TradingRequest) (store0 : Store) (t0 : ℕ)
    (ad : AnalysisData) (rec : String) (c : ℚ) (tf : TradeRequest → TraderResponse)
    (hsm : env.session_manager = true)
    (hnf : ∀ op, env.fault op = false)
    (hmu : env.market_analyst_url_set = true)
    (hsu : env.stock_trader_url_set = true)
    (han : env.analysis = .ok ad)
    (hrec : ad.recommendation = some rec)
    (hconf : ad.confidence = some c)
    (htr : ∀ r, env.trade r = .ok (tf r)) :
    (request.auto_execute = false →
      workflowStatusOf (orchestrate_trading env request store0 t0).1 = some "ANALYSIS_ONLY"
      ∧ tradeResultOf (orchestrate_trading env request store0 t0).1 = some none
      ∧ ∀ tr, orchestrate_trading { env with trade := tr } request store0 t0
          = orchestrate_trading env request store0 t0)
    ∧ (request.auto_execute = true →
      decide_execution_with_llm ad request.quantity request.auto_execute env.decide_llm = false →
      workflowStatusOf (orchestrate_trading env request store0 t0).1 = some "EXECUTION_DECLINED"
      ∧ tradeResultOf (orchestrate_trading env request store0 t0).1 = some none)
    ∧ (request.auto_execute = true →
      decide_execution_with_llm ad request.quantity request.auto_execute env.decide_llm = true →
      workflowStatusOf (orchestrate_trading env request store0 t0).1 = some "COMPLETED"
      ∧ tradeResultOf (orchestrate_trading env request store0 t0).1 =
          some (some (tf (engine_trade_request request.symbol rec request.quantity
            (resolved_session_id request t0)))))
    ∧ (getDoc ((orchestrate_trading env request store0 t0).2).sessions
        (resolved_session_id request t0)).map Session.status = some "completed" := by
  cases hau : request.auto_execute <;>
  cases hse : decide_execution_with_llm ad request.quantity request.auto_execute env.decide_llm <;>
  rw [hau] at hse <;>
  refine ⟨fun h1 => ?_, fun h1 h2 => ?_, fun h1 h2 => ?_, ?_⟩ <;>
  (try (simp [hau] at h1)) <;>
  (try (simp [hau, hse] at h2)) <;>
  simp [orchestrate_trading, hsm, hnf, hmu, hsu, han, hrec, hconf, hau, hse, htr,
    create_session, add_workflow_step, update_session, save_analysis, save_trade,
    arrayUnion, getDoc_setDoc_self, workflowStatusOf, tradeResultOf]

/-- C8 counterexample: an analysis-only run (`autoExecute = false`) with the
Analysis Provider endpoint configured still fails with the ConfigurationError
merely because the Execution Provider endpoint is unconfigured. -/
theorem analysis_only_needs_trader_url_cex :
    reqAnalysisOnly.auto_execute = false
    ∧ envNoTraderUrl.market_analyst_url_set = true
    ∧ (orchestrate_trading envNoTraderUrl reqAnalysisOnly emptyStore 0).1 =
        .httpError 500 configErrorDetail := by
  decide

/-- C8 amended: every run — analysis-only included — fails with the
ConfigurationError exactly when the Analysis Provider endpoint or the
Execution Provider endpoint is unconfigured (provided session creation does
not itself raise first). -/
theorem config_error_iff_missing_urls
    (env : Env) (request : TradingRequest) (store0 : Store) (t0 : ℕ)
    (hc : (env.session_manager && env.fault .createSession) = false) :
    ((orchestrate_trading env request store0 t0).1 = .httpError 500 configErrorDetail)
      ↔ (env.market_analyst_url_set = false ∨ env.stock_trader_url_set = false) := by
  cases hmu : env.market_analyst_url_set <;>
  cases hsu : env.stock_trader_url_set <;>
  (try simp [orchestrate_trading, hc, hmu, hsu, configErrorDetail]) <;>
  rcases han : env.analysis with m | ad <;>
  (try simp [han, workflow_error_ne_config, configErrorDetail]) <;>
  rcases hrec : ad.recommendation with _ | rec <;>
  (try simp [hrec, configErrorDetail]) <;>
  rcases hconf : ad.confidence with _ | c <;>
  (try simp [hconf, configErrorDetail]) <;>
  by_cases hsa : env.session_manager = true ∧ env.fault WriteOp.saveAnalysis = true <;>
  (try simp [hsa, configErrorDetail]) <;>
  by_cases hb : decide_execution_with_llm ad request.quantity request.auto_execute env.decide_llm
      = true ∧ request.auto_execute = true <;>
  (try (obtain ⟨hb1, hb2⟩ := hb)) <;>
  (try (rw [hb2] at hb1)) <;>
  (try simp [hb, configErrorDetail]) <;>
  (try simp [hb1, hb2, configErrorDetail]) <;>
  (try (cases hau : request.auto_execute <;> simp [hau, configErrorDetail])) <;>
  rcases htr2 : env.trade (engine_trade_request request.symbol rec request.quantity
      (resolved_session_id request t0)) with m2 | td <;>
  (try simp [htr2, workflow_error_ne_config, configErrorDetail]) <;>
  by_cases hstf : env.session_manager = true ∧ env.fault WriteOp.saveTrade = true <;>
  (try simp [hstf, workflow_error_ne_config, configErrorDetail])

/-- C8 witness: with the execution endpoint missing, an analysis-only run
fails with the ConfigurationError. -/
theorem config_error_iff_missing_urls_witness :
    (orchestrate_trading envNoTraderUrl reqAnalysisOnly emptyStore 0).1 =
      .httpError 500 configErrorDetail :=
  (config_error_iff_missing_urls envNoTraderUrl reqAnalysisOnly emptyStore 0 rfl).2
    (Or.inr rfl)

/-- C5 witness: the analysis-only scenario at the concrete fixture. -/
theorem terminal_status_policy_witness :
    workflowStatusOf (orchestrate_trading envAnalysisOk reqAnalysisOnly emptyStore 0).1
      = some "ANALYSIS_ONLY"
    ∧ (getDoc ((orchestrate_trading envAnalysisOk reqAnalysisOnly emptyStore 0).2).sessions
        "sess-ao").map Session.status = some "completed" := by
  have h := terminal_status_policy envAnalysisOk reqAnalysisOnly emptyStore 0 adataBUY "BUY"
    (85/100) (fun r => execute_trade r .failure 42) rfl (fun _ => rfl) rfl rfl rfl rfl rfl
    (fun _ => rfl)
  exact ⟨(h.1 rfl).1, h.2.2.2⟩

/-! ## C9 supporting lemmas -/

theorem create_session_steps_fresh (store : Store) (t : ℕ) (sid' uid : String)
    (d : InitialData) (sid : String) (h : getDoc store.sessions sid' = none) :
    sessionSteps (create_session store t sid' uid d).1 sid = sessionSteps store sid := by
  by_cases hs : sid = sid'
  · subst hs
    simp [create_session, sessionSteps, getDoc_setDoc_self, h]
  · simp [create_session, sessionSteps, getDoc_setDoc_ne _ _ _ _ hs]

theorem add_workflow_step_steps (f : Bool) (store : Store) (t : ℕ)
    (sid' tag : String) (p : StepPayload) (sid : String) :
    sessionSteps (add_workflow_step f store t sid' tag p).1 sid = sessionSteps store sid
    ∨ sessionSteps (add_workflow_step f store t sid' tag p).1 sid
        = sessionSteps store sid ++ [{ step := tag, payload := p, timestamp := t }] := by
  unfold add_workflow_step
  split
  · exact Or.inl rfl
  · split
    · exact Or.inl rfl
    · rename_i s hg
      by_cases hs : sid = sid'
      · subst hs
        by_cases hmem : ({ step := tag, payload := p, timestamp := t } : WorkflowStep)
            ∈ s.workflow_steps
        · exact Or.inl (by simp [sessionSteps, getDoc_setDoc_self, hg, arrayUnion, hmem])
        · exact Or.inr (by simp [sessionSteps, getDoc_setDoc_self, hg, arrayUnion, hmem])
      · exact Or.inl (by simp [sessionSteps, getDoc_setDoc_ne _ _ _ _ hs])

theorem update_session_steps (f : Bool) (store : Store) (t : ℕ)
    (sid' : String) (u : SessionUpdate) (sid : String) :
    sessionSteps (update_session f store t sid' u).1 sid = sessionSteps store sid := by
  unfold update_session
  split
  · rfl
  · split
    · rfl
    · rename_i s hg
      by_cases hs : sid = sid'
      · subst hs
        simp [sessionSteps, getDoc_setDoc_self, hg]
      · simp [sessionSteps, getDoc_setDoc_ne _ _ _ _ hs]

theorem save_analysis_steps (store : Store) (t : ℕ) (sid' sym : String)
    (d : AnalysisData) (sid : String) :
    sessionSteps (save_analysis store t sid' sym d).1 sid = sessionSteps store sid := rfl

theorem save_trade_steps (store : Store) (t : ℕ) (sid' : String)
    (d : TraderResponse) (sid : String) :
    sessionSteps (save_trade store t sid' d).1 sid = sessionSteps store sid := rfl

theorem sessionSteps_applyOp_extends (stc : Store × ℕ) (op : StoreOp) (sid : String)
    (hfresh : ∀ sid' uid d, op = .createSessionOp sid' uid d →
      getDoc stc.1.sessions sid' = none) :
    ∃ tail, sessionSteps (applyOp stc op).1 sid = sessionSteps stc.1 sid ++ tail := by
  obtain ⟨store, t⟩ := stc
  cases op with
  | createSessionOp sid' uid d =>
    exact ⟨[], by
      simp [applyOp, create_session_steps_fresh store t sid' uid d sid
        (hfresh sid' uid d rfl)]⟩
  | addStepOp f sid' tag p =>
    rcases add_workflow_step_steps f store t sid' tag p sid with h | h
    · exact ⟨[], by simpa [applyOp] using h⟩
    · exact ⟨[{ step := tag, payload := p, timestamp := t }], by simpa [applyOp] using h⟩
  | updateSessionOp f sid' u =>
    exact ⟨[], by simpa [applyOp] using update_session_steps f store t sid' u sid⟩
  | saveAnalysisOp sid' sym d => exact ⟨[], by simp [applyOp, save_analysis_steps]⟩
  | saveTradeOp sid' d => exact ⟨[], by simp [applyOp, save_trade_steps]⟩
  | closeSessionOp f sid' =>
    exact ⟨[], by
      simpa [applyOp, close_session] using
        update_session_steps f store t sid' { status := some "closed" } sid⟩

theorem stepsOK_empty : StepsOK (emptyStore, 0) := by
  intro sid s h
  simp [emptyStore, getDoc] at h

theorem getDoc_add_workflow_step (f : Bool) (store : Store) (t : ℕ)
    (sid' tag : String) (p : StepPayload) (sid : String) :
    getDoc ((add_workflow_step f store t sid' tag p).1).sessions sid
        = getDoc store.sessions sid
    ∨ ∃ s0, getDoc store.sessions sid = some s0
        ∧ getDoc ((add_workflow_step f store t sid' tag p).1).sessions sid
          = some { s0 with
              workflow_steps := arrayUnion s0.workflow_steps
                { step := tag, payload := p, timestamp := t }
              updated_at := t } := by
  unfold add_workflow_step
  split
  · exact Or.inl rfl
  · split
    · exact Or.inl rfl
    · rename_i s0 hg0
      by_cases hs : sid = sid'
      · subst hs
        exact Or.inr ⟨s0, hg0, by simp [getDoc_setDoc_self]⟩
      · exact Or.inl (by simp [getDoc_setDoc_ne _ _ _ _ hs])

theorem getDoc_update_session (f : Bool) (store : Store) (t : ℕ)
    (sid' : String) (u : SessionUpdate) (sid : String) :
    getDoc ((update_session f store t sid' u).1).sessions sid
        = getDoc store.sessions sid
    ∨ ∃ s0, getDoc store.sessions sid = some s0
        ∧ getDoc ((update_session f store t sid' u).1).sessions sid
          = some { s0 with
              updated_at := t
              status := u.status.getD s0.status
              workflow_status :=
                match u.workflow_status with
                | some w => some w
                | none => s0.workflow_status } := by
  unfold update_session
  split
  · exact Or.inl rfl
  · split
    · exact Or.inl rfl
    · rename_i s0 hg0
      by_cases hs : sid = sid'
      · subst hs
        exact Or.inr ⟨s0, hg0, by simp [getDoc_setDoc_self]⟩
      · exact Or.inl (by simp [getDoc_setDoc_ne _ _ _ _ hs])

theorem stepsOK_carry {store : Store} {t : ℕ} (h : StepsOK (store, t))
    {sid : String} {s : Session} (hg : getDoc store.sessions sid = some s) :
    (∀ w ∈ s.workflow_steps, w.timestamp < t + 1)
    ∧ List.Chain' (fun a b => a.timestamp ≤ b.timestamp) s.workflow_steps := by
  obtain ⟨hb, hc⟩ := h sid s hg
  exact ⟨fun w hw => Nat.lt_succ_of_lt (hb w hw), hc⟩

theorem stepsOK_applyOp (stc : Store × ℕ) (op : StoreOp) (h : StepsOK stc) :
    StepsOK (applyOp stc op) := by
  obtain ⟨store, t⟩ := stc
  cases op with
  | createSessionOp sid' uid d =>
    intro sid s hg
    simp only [applyOp, create_session] at hg
    by_cases hs : sid = sid'
    · subst hs
      rw [getDoc_setDoc_self] at hg
      obtain rfl := Option.some.inj hg.symm
      simp
    · rw [getDoc_setDoc_ne _ _ _ _ hs] at hg
      exact stepsOK_carry h hg
  | addStepOp f sid' tag p =>
    intro sid s hg
    simp only [applyOp] at hg
    rcases getDoc_add_workflow_step f store t sid' tag p sid with heq | ⟨s0, hg0, heq⟩
    · rw [heq] at hg
      exact stepsOK_carry h hg
    · rw [heq] at hg
      obtain rfl := Option.some.inj hg.symm
      obtain ⟨hb0, hc0⟩ := h sid s0 hg0
      constructor
      · intro w hw
        simp only [arrayUnion] at hw
        split at hw
        · exact Nat.lt_succ_of_lt (hb0 w hw)
        · rcases List.mem_append.mp hw with h1 | h1
          · exact Nat.lt_succ_of_lt (hb0 w h1)
          · simp at h1
            subst h1
            exact Nat.lt_succ_self t
      · simp only [arrayUnion]
        split
        · exact hc0
        · refine List.chain'_append.mpr ⟨hc0, List.chain'_singleton _, ?_⟩
          intro a ha b hb
          simp at hb
          subst hb
          exact Nat.le_of_lt (hb0 a (List.mem_of_mem_getLast? ha))
  | updateSessionOp f sid' u =>
    intro sid s hg
    simp only [applyOp] at hg
    rcases getDoc_update_session f store t sid' u sid with heq | ⟨s0, hg0, heq⟩
    · rw [heq] at hg
      exact stepsOK_carry h hg
    · rw [heq] at hg
      obtain rfl := Option.some.inj hg.symm
      obtain ⟨hb0, hc0⟩ := h sid s0 hg0
      exact ⟨fun w hw => Nat.lt_succ_of_lt (hb0 w hw), hc0⟩
  | saveAnalysisOp sid' sym d =>
    intro sid s hg
    exact stepsOK_carry h hg
  | saveTradeOp sid' d =>
    intro sid s hg
    exact stepsOK_carry h hg
  | closeSessionOp f sid' =>
    intro sid s hg
    simp only [applyOp, close_session] at hg
    rcases getDoc_update_session f store t sid' { status := some "closed" } sid with
      heq | ⟨s0, hg0, heq⟩
    · rw [heq] at hg
      exact stepsOK_carry h hg
    · rw [heq] at hg
      obtain rfl := Option.some.inj hg.symm
      obtain ⟨hb0, hc0⟩ := h sid s0 hg0
      exact ⟨fun w hw => Nat.lt_succ_of_lt (hb0 w hw), hc0⟩

theorem stepsOK_runFrom (ops : List StoreOp) (stc : Store × ℕ) (h : StepsOK stc) :
    StepsOK (runFrom stc ops) := by
  induction ops generalizing stc with
  | nil => exact h
  | cons op rest ih => exact ih (applyOp stc op) (stepsOK_applyOp stc op h)

theorem createsFresh_append (l1 l2 : List StoreOp) (stc : Store × ℕ)
    (h : createsFresh stc (l1 ++ l2) = true) :
    createsFresh (runFrom stc l1) l2 = true := by
  induction l1 generalizing stc with
  | nil => exact h
  | cons op rest ih =>
    rw [List.cons_append, createsFresh, Bool.and_eq_true] at h
    exact ih (applyOp stc op) h.2

theorem sessionSteps_runFrom_extends (l : List StoreOp) (stc : Store × ℕ) (sid : String)
    (h : createsFresh stc l = true) :
    ∃ tail, sessionSteps (runFrom stc l).1 sid = sessionSteps stc.1 sid ++ tail := by
  induction l generalizing stc with
  | nil => exact ⟨[], by simp [runFrom]⟩
  | cons op rest ih =>
    rw [createsFresh, Bool.and_eq_true] at h
    obtain ⟨h1, h2⟩ := h
    have hfresh : ∀ sid' uid d, op = .createSessionOp sid' uid d →
        getDoc stc.1.sessions sid' = none := by
      intro sid' uid d heq
      subst heq
      simpa [freshGuard, Option.isNone_iff_eq_none] using h1
    obtain ⟨t1, ht1⟩ := sessionSteps_applyOp_extends stc op sid hfresh
    obtain ⟨t2, ht2⟩ := ih (applyOp stc op) h2
    refine ⟨t1 ++ t2, ?_⟩
    rw [show runFrom stc (op :: rest) = runFrom (applyOp stc op) rest from rfl, ht2, ht1,
      List.append_assoc]

/-- C9 amended: over every sequence of store operations in which no
`create_session` targets an already-existing session id, the step log of every
session is append-only — after running any further operations the log is the
old log followed by a (possibly empty) tail, so its length never decreases and
recorded steps are never edited, removed or reordered — and its timestamps are
non-decreasing in log order.  (A duplicate `create_session` silently resets
the log, which is why the freshness condition is required.) -/
theorem workflow_steps_append_only (l1 l2 : List StoreOp) (sid : String)
    (h : createsFresh (emptyStore, 0) (l1 ++ l2) = true) :
    (∃ tail, sessionSteps (runOps (l1 ++ l2)).1 sid
        = sessionSteps (runOps l1).1 sid ++ tail)
    ∧ List.Chain' (fun a b => a.timestamp ≤ b.timestamp)
        (sessionSteps (runOps (l1 ++ l2)).1 sid) := by
  constructor
  · have hsplit := createsFresh_append l1 l2 (emptyStore, 0) h
    have hrw : runOps (l1 ++ l2) = runFrom (runOps l1) l2 := by
      simp [runOps, runFrom, List.foldl_append]
    rw [hrw]
    exact sessionSteps_runFrom_extends l2 (runOps l1) sid hsplit
  · have hok := stepsOK_runFrom (l1 ++ l2) (emptyStore, 0) stepsOK_empty
    cases hg : getDoc ((runOps (l1 ++ l2)).1).sessions sid with
    | none => simp [sessionSteps, hg]
    | some s =>
      have hchain := (hok sid s hg).2
      simpa [sessionSteps, hg] using hchain

/-- C9 witness: appending one further step to the fresh-create run extends the
log of session `s` and keeps its timestamps ordered. -/
theorem workflow_steps_append_only_witness :
    (∃ tail, sessionSteps (runOps (opsCreateThenStep
          ++ [.addStepOp false "s" "analysis_requested" (.ofSymbol "AAPL")])).1 "s"
        = sessionSteps (runOps opsCreateThenStep).1 "s" ++ tail)
    ∧ List.Chain' (fun a b => a.timestamp ≤ b.timestamp)
        (sessionSteps (runOps (opsCreateThenStep
          ++ [.addStepOp false "s" "analysis_requested" (.ofSymbol "AAPL")])).1 "s") :=
  workflow_steps_append_only opsCreateThenStep
    [.addStepOp false "s" "analysis_requested" (.ofSymbol "AAPL")] "s" (by decide)

/-! ## C10 -/

theorem execute_trade_price_150
    (req : TradeRequest) (risk : LLMResult) (t : ℕ) (tr : TradeResult)
    (hp : req.price = none ∨ req.price = some 0)
    (he : execute_trade req risk t = .result tr)
    (ha : tr.action = "BUY" ∨ tr.action = "SELL") :
    tr.price = 150 ∧ tr.total_value = some (150 * (tr.quantity : ℚ)) := by
  unfold execute_trade at he
  split at he
  · obtain rfl := TraderResponse.result.inj he
    simp at ha
  · split at he
    · cases he
    · obtain rfl := TraderResponse.result.inj he
      constructor
      · rcases hp with hp | hp <;> simp [hp]
      · rcases hp with hp | hp <;> simp [hp]

set_option maxHeartbeats 2000000 in
/-- C10: the engine's trade request always carries a null price
(`price: None` at line 184 of the orchestrator); `execute_trade` substitutes
the fixed price 150.00 whenever the requested price is null or 0; and hence
every BUY/SELL trade payload produced by a workflow run whose Execution
Provider behaves as `execute_trade` has price 150.00 and
`total_value = 150.00 × quantity`. -/
theorem engine_trades_priced_150 :
    (∀ symbol rec quantity sid,
      (engine_trade_request symbol rec quantity sid).price = none)
    ∧ (∀ req risk t tr, (req.price = none ∨ req.price = some 0) →
        execute_trade req risk t = .result tr →
        (tr.action = "BUY" ∨ tr.action = "SELL") →
        tr.price = 150 ∧ tr.total_value = some (150 * (tr.quantity : ℚ)))
    ∧ (∀ env request store0 t0 risk ts r tr,
        env.trade = (fun req => .ok (execute_trade req risk ts)) →
        (orchestrate_trading env request store0 t0).1 = .ok r →
        r.trade_result = some (.result tr) →
        (tr.action = "BUY" ∨ tr.action = "SELL") →
        tr.price = 150 ∧ tr.total_value = some (150 * (tr.quantity : ℚ))) := by
  refine ⟨fun _ _ _ _ => rfl, execute_trade_price_150, ?_⟩
  intro env request store0 t0 risk ts r tr htrader hok htrade ha
  simp only [orchestrate_trading, htrader] at hok
  cases hsm : env.session_manager <;>
  cases hcf : env.fault WriteOp.createSession <;>
  cases hmu : env.market_analyst_url_set <;>
  cases hsu : env.stock_trader_url_set <;>
  (try simp [hsm, hcf, hmu, hsu] at hok) <;>
  rcases han : env.analysis with m | ad <;>
  (try simp [han] at hok) <;>
  rcases hrec : ad.recommendation with _ | rec2 <;>
  (try simp [hrec] at hok) <;>
  rcases hconf : ad.confidence with _ | c <;>
  (try simp [hconf] at hok) <;>
  by_cases hsa : env.session_manager = true ∧ env.fault WriteOp.saveAnalysis = true <;>
  (try (simp [hsm] at hsa)) <;>
  (try simp [hsa] at hok) <;>
  by_cases hb : decide_execution_with_llm ad request.quantity request.auto_execute env.decide_llm
      = true ∧ request.auto_execute = true <;>
  (try (obtain ⟨hb1, hb2⟩ := hb)) <;>
  (try (rw [hb2] at hb1)) <;>
  (try simp [hb] at hok) <;>
  (try simp [hb1, hb2] at hok) <;>
  (try (cases hau : request.auto_execute <;> simp [hau] at hok)) <;>
  by_cases hstf : env.session_manager = true ∧ env.fault WriteOp.saveTrade = true <;>
  (try (simp [hsm] at hstf)) <;>
  (try simp [hstf] at hok) <;>
  (try (subst hok)) <;>
  (try (dsimp only at htrade)) <;>
  (try (simp at htrade)) <;>
  (exact execute_trade_price_150 _ risk ts tr (Or.inl rfl) htrade ha)

/-- C10 witness: in the concrete executed BUY run the recorded trade has
price 150 and total value 150 × 100. -/
theorem engine_trades_priced_150_witness :
    trBuy.price = 150 ∧ trBuy.total_value = some (150 * (trBuy.quantity : ℚ)) :=
  engine_trades_priced_150.2.2 envBuyYes reqAutoExec emptyStore 0 .failure 42
    resultBuy trBuy rfl rfl rfl (Or.inl rfl)

end Trading